import Mathlib

/-
Verification of the Thread-Metric RT-Thread porting layer.

Shallow embedding of the two porting-layer variants
(tm_porting_layer_rtthread.c, static-thread variant, and the
dynamic-thread variant that also provides SVC_Handler, tm_thread_detach
and the trap_flag dispatch in tm_cause_interrupt).

The RT-Thread kernel primitives (rt_thread_*, rt_mq_*, rt_sem_*, rt_mp_*)
are not part of the repository; their semantics are modelled from the
specification and marked as such in their doc comments.  The porting-layer
functions themselves are translated from the C source.  Machine pointers
are modelled as Option values (none = RT_NULL); the fixed handle tables
are modelled as functions from slot ids, instrumented with a flag that
records any access with an index outside the fixed capacity, since the C
code indexes the tables without a bounds check.
-/

/-- Two-valued status returned by the adapter calls (TM_SUCCESS / TM_ERROR). -/
inductive TmStatus
  | success
  | error
deriving DecidableEq

/-- Scheduler-level states of one thread object that the porting layer can observe:
freshly created (before rt_thread_startup), ready/runnable, or suspended. -/
inductive ThreadState
  | initState
  | ready
  | suspended
deriving DecidableEq

/-- Modelled from the spec: rt_thread_startup (RT-Thread kernel, not in the repository) —
starting a newly created thread makes it ready/runnable. -/
def rt_thread_startup (s : ThreadState) : ThreadState :=
  match s with
  | ThreadState.initState => ThreadState.ready
  | s => s

/-- Modelled from the spec: rt_thread_suspend (RT-Thread kernel, not in the repository) —
a ready thread becomes suspended; suspending a thread that is not ready surfaces the
underlying RTOS error and leaves the state unchanged (idempotence is not guaranteed). -/
def rt_thread_suspend (s : ThreadState) : ThreadState × Bool :=
  match s with
  | ThreadState.ready => (ThreadState.suspended, true)
  | s => (s, false)

/-- Modelled from the spec: rt_thread_resume (RT-Thread kernel, not in the repository) —
a suspended thread becomes ready; resuming a thread that is not suspended surfaces the
underlying RTOS error and leaves the state unchanged. -/
def rt_thread_resume (s : ThreadState) : ThreadState × Bool :=
  match s with
  | ThreadState.suspended => (ThreadState.ready, true)
  | s => (s, false)

/-- TM_TEST_NUM_THREADS: capacity of the thread handle table. -/
def TM_TEST_NUM_THREADS : Nat := 10

/-- The handle table test_thread[TM_TEST_NUM_THREADS] (none = RT_NULL handle), plus an
instrumentation flag recording whether any table access used an index outside the table,
since the C code indexes test_thread[thread_id] without a bounds check. -/
structure ThreadMachine where
  slots : Nat → Option ThreadState
  oob : Bool

/-- Initial table: every handle is RT_NULL (static storage is zero-initialized). -/
def emptyThreads : ThreadMachine := ⟨fun _ => none, false⟩

/-- Store a handle into test_thread[id], recording an out-of-bounds access when
id is outside 0..TM_TEST_NUM_THREADS-1. -/
def writeSlot (m : ThreadMachine) (id : Nat) (v : Option ThreadState) : ThreadMachine :=
  ⟨fun j => if j = id then v else m.slots j, m.oob || decide (TM_TEST_NUM_THREADS ≤ id)⟩

/-- Apply a kernel operation to the thread object held in test_thread[id], recording an
out-of-bounds access when id is outside the table. -/
def updateSlot (m : ThreadMachine) (id : Nat) (f : Option ThreadState → Option ThreadState) :
    ThreadMachine :=
  ⟨fun j => if j = id then f (m.slots j) else m.slots j,
   m.oob || decide (TM_TEST_NUM_THREADS ≤ id)⟩

@[simp]
theorem writeSlot_slots (m : ThreadMachine) (id : Nat) (v : Option ThreadState) (j : Nat) :
    (writeSlot m id v).slots j = if j = id then v else m.slots j := rfl

@[simp]
theorem updateSlot_slots (m : ThreadMachine) (id : Nat)
    (f : Option ThreadState → Option ThreadState) (j : Nat) :
    (updateSlot m id f).slots j = if j = id then f (m.slots j) else m.slots j := rfl

/-- Modelled from the spec: rt_thread_create (RT-Thread kernel, not in the repository) —
dynamic creation returning a handle to a thread in the init state, or RT_NULL on resource
exhaustion; the createOk oracle stands for the availability of kernel resources. -/
def rt_thread_create (priority : Nat) (createOk : Bool) : Option ThreadState :=
  if createOk then some ThreadState.initState else none

/-- tm_thread_create: test_thread[thread_id] = rt_thread_create(...); when the handle is not
RT_NULL the code calls rt_thread_startup then rt_thread_suspend on it and returns TM_SUCCESS,
otherwise TM_ERROR.  No check of thread_id or priority appears in the source. -/
def tm_thread_create (m : ThreadMachine) (id priority : Nat) (createOk : Bool) :
    ThreadMachine × TmStatus :=
  let h := rt_thread_create priority createOk
  let m1 := writeSlot m id h
  match h with
  | some _ =>
      let m2 := updateSlot m1 id (fun s => s.map rt_thread_startup)
      let m3 := updateSlot m2 id (fun s => s.map (fun t => (rt_thread_suspend t).1))
      (m3, TmStatus.success)
  | none => (m1, TmStatus.error)

/-- tm_thread_resume: rt_thread_resume(test_thread[thread_id]); TM_SUCCESS iff RT_EOK.
A slot holding RT_NULL (thread never created) yields the RTOS error. -/
def tm_thread_resume (m : ThreadMachine) (id : Nat) : ThreadMachine × TmStatus :=
  match m.slots id with
  | some t =>
      (updateSlot m id (fun _ => some (rt_thread_resume t).1),
       if (rt_thread_resume t).2 then TmStatus.success else TmStatus.error)
  | none => (updateSlot m id (fun s => s), TmStatus.error)

/-- Kernel entry points a porting-layer call can invoke, recorded as a call trace. -/
inductive RtCall
  | suspendCall (id : Nat)
  | scheduleCall
deriving DecidableEq

/-- tm_thread_suspend, dynamic-thread variant: rt_thread_suspend(test_thread[thread_id])
followed by rt_schedule(); returns TM_SUCCESS iff the suspend reported RT_EOK.  The third
component is the trace of kernel calls made. -/
def tm_thread_suspend (m : ThreadMachine) (id : Nat) :
    ThreadMachine × TmStatus × List RtCall :=
  match m.slots id with
  | some t =>
      (updateSlot m id (fun _ => some (rt_thread_suspend t).1),
       if (rt_thread_suspend t).2 then TmStatus.success else TmStatus.error,
       [RtCall.suspendCall id, RtCall.scheduleCall])
  | none =>
      (updateSlot m id (fun s => s), TmStatus.error,
       [RtCall.suspendCall id, RtCall.scheduleCall])

namespace PortStatic

/-- tm_thread_suspend, static-thread variant: only rt_thread_suspend(&test_thread[thread_id]);
this variant does not call rt_schedule before returning. -/
def tm_thread_suspend (m : ThreadMachine) (id : Nat) :
    ThreadMachine × TmStatus × List RtCall :=
  match m.slots id with
  | some t =>
      (updateSlot m id (fun _ => some (rt_thread_suspend t).1),
       if (rt_thread_suspend t).2 then TmStatus.success else TmStatus.error,
       [RtCall.suspendCall id])
  | none =>
      (updateSlot m id (fun s => s), TmStatus.error,
       [RtCall.suspendCall id])

end PortStatic

/-- Driver-level calls that can touch the thread handle table.  Queue, semaphore, pool,
sleep and relinquish calls never touch it and are represented by otherOp. -/
inductive TmOp
  | createOp (id priority : Nat) (createOk : Bool)
  | resumeOp (id : Nat)
  | suspendOp (id : Nat)
  | otherOp
deriving DecidableEq

/-- Effect of one driver-level call on the thread handle table. -/
def stepOp (m : ThreadMachine) : TmOp → ThreadMachine
  | TmOp.createOp id p ok => (tm_thread_create m id p ok).1
  | TmOp.resumeOp id => (tm_thread_resume m id).1
  | TmOp.suspendOp id => (tm_thread_suspend m id).1
  | TmOp.otherOp => m

/-- Run a sequence of driver-level calls. -/
def runOps (m : ThreadMachine) (ops : List TmOp) : ThreadMachine :=
  ops.foldl stepOp m

/-- tm_thread_detach (dynamic-thread variant): for every slot i in 0..9 the code evaluates
(test_thread[i])->stack_addr and calls rt_thread_delete(test_thread[i]) when the stack
address is non-null.  A thread object allocated by rt_thread_create always carries a
non-null stack address, so every created slot is deleted; a slot holding RT_NULL (thread
never created) has its handle pointer dereferenced anyway to read stack_addr.  The result
is the list of deleted slot ids together with a flag recording whether a null handle was
dereferenced. -/
def detachSlot (h : Option ThreadState) : Bool × Bool :=
  match h with
  | none => (false, true)
  | some _ => (true, false)

/-- Bulk teardown over the whole thread table (see detachSlot). -/
def tm_thread_detach (m : ThreadMachine) : List Nat × Bool :=
  (List.range TM_TEST_NUM_THREADS).foldl
    (fun acc i =>
      let r := detachSlot (m.slots i)
      (if r.1 then acc.1 ++ [i] else acc.1, acc.2 || r.2))
    ([], false)

/-- TM_QUEUE capacity: the backing buffer holds 8 messages of 16 bytes. -/
def TM_QUEUE_CAPACITY : Nat := 8

/-- Fixed envelope size in bytes. -/
def TM_QUEUE_MSG_SIZE : Nat := 16

/-- A message is its list of bytes; an envelope is 16 bytes long. -/
abbrev Envelope := List Nat

/-- A queue is the FIFO list of stored envelopes, oldest first. -/
abbrev MsgQueue := List Envelope

/-- The table test_msgq of the four benchmark queues, indexed by queue id. -/
abbrev QueueTable := Nat → MsgQueue

/-- Modelled from the spec: rt_mq_send (RT-Thread kernel, not in the repository) — copies one
fixed-size 16-byte envelope into the queue; non-blocking, reports failure when the queue
already holds its fixed capacity of 8 envelopes. -/
def rt_mq_send (q : MsgQueue) (msg : Envelope) : MsgQueue × Bool :=
  if msg.length = TM_QUEUE_MSG_SIZE ∧ q.length < TM_QUEUE_CAPACITY then (q ++ [msg], true)
  else (q, false)

/-- Modelled from the spec: rt_mq_recv with RT_WAITING_NO (RT-Thread kernel, not in the
repository) — copies the oldest envelope out; returns immediately with no envelope when the
queue is empty. -/
def rt_mq_recv (q : MsgQueue) : MsgQueue × Option Envelope :=
  match q with
  | [] => ([], none)
  | msg :: rest => (rest, some msg)

/-- tm_queue_create: rt_mq_init over the fixed backing buffer leaves the queue empty. -/
def tm_queue_create (s : QueueTable) (id : Nat) : QueueTable × TmStatus :=
  (fun j => if j = id then [] else s j, TmStatus.success)

/-- tm_queue_send: rt_mq_send(&test_msgq[queue_id], message_ptr, 16); TM_SUCCESS iff RT_EOK. -/
def tm_queue_send (s : QueueTable) (id : Nat) (msg : Envelope) : QueueTable × TmStatus :=
  let r := rt_mq_send (s id) msg
  (fun j => if j = id then r.1 else s j,
   if r.2 then TmStatus.success else TmStatus.error)

/-- tm_queue_receive: rt_mq_recv(&test_msgq[queue_id], message_ptr, 16, RT_WAITING_NO);
the middle component is the envelope copied to message_ptr, when any. -/
def tm_queue_receive (s : QueueTable) (id : Nat) :
    QueueTable × Option Envelope × TmStatus :=
  let r := rt_mq_recv (s id)
  (fun j => if j = id then r.1 else s j, r.2,
   if r.2.isSome then TmStatus.success else TmStatus.error)

/-- Send a list of envelopes in order; the flag is true when every send reported TM_SUCCESS. -/
def sendList (s : QueueTable) (id : Nat) (msgs : List Envelope) : QueueTable × Bool :=
  match msgs with
  | [] => (s, true)
  | msg :: rest =>
      let r := tm_queue_send s id msg
      let r2 := sendList r.1 id rest
      (r2.1, decide (r.2 = TmStatus.success) && r2.2)

/-- Result of a semaphore acquisition on a real semaphore object: immediate success,
immediate failure (no-wait policy), or the caller blocks until the count is raised
(wait-forever policy). -/
inductive SemResult
  | ok
  | fail
  | blocked
deriving DecidableEq

/-- The table of counts of the semaphores returned by rt_sem_create, keyed by the
test_sem slot that stores their handle. -/
abbrev SemTable := Nat → Nat

/-- The object a porting-layer call hands to rt_sem_take or rt_sem_release: either the
handle stored in test_sem[id] — the semaphore object rt_sem_create returned — or the
address of the table slot itself, reinterpreted as a semaphore control block. -/
inductive SemObject
  | storedHandle (id : Nat)
  | slotAddress (id : Nat)
deriving DecidableEq

/-- tm_semaphore_create: test_sem[semaphore_id] = rt_sem_create(..., 1, ...) stores the
handle of a fresh binary semaphore with count 1 into the slot. -/
def tm_semaphore_create (s : SemTable) (id : Nat) : SemTable × TmStatus :=
  (fun j => if j = id then 1 else s j, TmStatus.success)

/-- Modelled from the spec: rt_sem_take with RT_WAITING_FOREVER (RT-Thread kernel, not in
the repository) — takes the semaphore when the count is positive, otherwise the caller
blocks indefinitely. -/
def rt_sem_take_forever (c : Nat) : Nat × SemResult :=
  if 0 < c then (c - 1, SemResult.ok) else (c, SemResult.blocked)

/-- tm_semaphore_get, dynamic-thread variant: rt_sem_take(test_sem[semaphore_id],
RT_WAITING_FOREVER) — the argument is the stored handle, so the take operates on the
created semaphore.  The last component records the object passed to the kernel call. -/
def tm_semaphore_get (s : SemTable) (id : Nat) : SemTable × SemResult × SemObject :=
  let r := rt_sem_take_forever (s id)
  (fun j => if j = id then r.1 else s j, r.2, SemObject.storedHandle id)

/-- tm_semaphore_put, dynamic-thread variant: rt_sem_release(test_sem[semaphore_id])
raises the count of the created semaphore; always TM_SUCCESS on a valid id. -/
def tm_semaphore_put (s : SemTable) (id : Nat) : SemTable × TmStatus × SemObject :=
  (fun j => if j = id then s j + 1 else s j, TmStatus.success, SemObject.storedHandle id)

namespace PortStatic

/-- tm_semaphore_get, static-thread variant: rt_sem_take(&test_sem[semaphore_id],
RT_WAITING_NO) — the argument is the address of the handle slot, not the handle stored in
it, so the kernel call reinterprets the slot memory as a semaphore control block and never
operates on the semaphore that tm_semaphore_create stored there; what it does to that
memory is undefined behavior, outside the model.  The created semaphores and their counts
are untouched. -/
def tm_semaphore_get (s : SemTable) (id : Nat) : SemTable × SemObject :=
  (s, SemObject.slotAddress id)

/-- tm_semaphore_put, static-thread variant: rt_sem_release(&test_sem[semaphore_id]) —
again the slot address, not the stored handle, is passed to the kernel call. -/
def tm_semaphore_put (s : SemTable) (id : Nat) : SemTable × SemObject :=
  (s, SemObject.slotAddress id)

end PortStatic

/-- Capacity of one memory pool: the backing buffer holds 8 blocks of 128 bytes. -/
def TM_POOL_CAPACITY : Nat := 8

/-- A pool state is its free-block list (block numbers), allocation order at the head. -/
abbrev PoolState := List Nat

/-- The table test_slab of the four benchmark pools, indexed by pool id. -/
abbrev PoolTable := Nat → PoolState

/-- Free list of a freshly initialized pool: all 8 blocks available. -/
def freshPool : PoolState := [0, 1, 2, 3, 4, 5, 6, 7]

/-- tm_memory_pool_create: rt_mp_init over the fixed buffer makes all 8 blocks free. -/
def tm_memory_pool_create (s : PoolTable) (id : Nat) : PoolTable × TmStatus :=
  (fun j => if j = id then freshPool else s j, TmStatus.success)

/-- Modelled from the spec: rt_mp_alloc with RT_WAITING_NO (RT-Thread kernel, not in the
repository) — hands out the head of the free list, or RT_NULL when the pool is exhausted,
without blocking. -/
def rt_mp_alloc (p : PoolState) : PoolState × Option Nat :=
  match p with
  | [] => ([], none)
  | b :: rest => (rest, some b)

/-- Modelled from the spec: rt_mp_free (RT-Thread kernel, not in the repository) — the block
returns to the head of the free list of the pool that owns it, recovered from block
metadata. -/
def rt_mp_free (p : PoolState) (b : Nat) : PoolState := b :: p

/-- tm_memory_pool_allocate: *memory_ptr = rt_mp_alloc(&test_slab[pool_id], RT_WAITING_NO);
TM_SUCCESS iff the returned pointer is not RT_NULL, so on failure the out pointer holds
RT_NULL (none). -/
def tm_memory_pool_allocate (s : PoolTable) (id : Nat) :
    PoolTable × Option Nat × TmStatus :=
  let r := rt_mp_alloc (s id)
  (fun j => if j = id then r.1 else s j, r.2,
   if r.2.isSome then TmStatus.success else TmStatus.error)

/-- tm_memory_pool_deallocate: rt_mp_free(memory_ptr); always returns TM_SUCCESS. -/
def tm_memory_pool_deallocate (s : PoolTable) (id : Nat) (b : Nat) : PoolTable × TmStatus :=
  (fun j => if j = id then rt_mp_free (s j) b else s j, TmStatus.success)

/-- Run n successive allocations, collecting the returned block pointers in order. -/
def allocSeq (s : PoolTable) (id : Nat) : Nat → PoolTable × List (Option Nat)
  | 0 => (s, [])
  | Nat.succ k =>
      let r := tm_memory_pool_allocate s id
      let rest := allocSeq r.1 id k
      (rest.1, r.2.1 :: rest.2)

/-- The two harness-registered handlers the trap entry point can dispatch to. -/
inductive TmHandler
  | interruptPreemption
  | interrupt
deriving DecidableEq

/-- SVC_Handler: the SVC immediate is recovered from the saved exception stack frame
(((uint8_t*)(stack_pointer[6]))[-2], modelled here as the input byte) and switched on:
case 255 calls tm_interrupt_preemption_handler, case 254 calls tm_interrupt_handler, the
default case does nothing.  The result is the list of handler invocations performed. -/
def SVC_Handler (svcNumber : Nat) : List TmHandler :=
  if svcNumber = 255 then [TmHandler.interruptPreemption]
  else if svcNumber = 254 then [TmHandler.interrupt]
  else []

/-- tm_cause_interrupt (dynamic-thread variant): raises SVC #255 when trap_flag is 255,
SVC #254 when trap_flag is 254, and otherwise executes the empty statement.  The result is
the raised SVC number, when any. -/
def tm_cause_interrupt (trapFlag : Nat) : Option Nat :=
  if trapFlag = 255 then some 255
  else if trapFlag = 254 then some 254
  else none

/-- Handlers invoked by one tm_cause_interrupt call: a raised trap enters SVC_Handler with
its SVC number; when no trap is raised no handler runs. -/
def causeInterruptHandlers (trapFlag : Nat) : List TmHandler :=
  match tm_cause_interrupt trapFlag with
  | some n => SVC_Handler n
  | none => []

theorem stepOp_notReady (m : ThreadMachine) (id : Nat) (o : TmOp)
    (h : m.slots id ≠ some ThreadState.ready) (ho : o ≠ TmOp.resumeOp id) :
    (stepOp m o).slots id ≠ some ThreadState.ready := by
  cases o with
  | createOp id2 p ok =>
      by_cases hid : id = id2
      · subst hid
        cases ok with
        | false => simp [stepOp, tm_thread_create, rt_thread_create]
        | true =>
            simp [stepOp, tm_thread_create, rt_thread_create, rt_thread_startup,
              rt_thread_suspend]
      · cases ok with
        | false => simpa [stepOp, tm_thread_create, rt_thread_create, hid] using h
        | true => simpa [stepOp, tm_thread_create, rt_thread_create, hid] using h
  | resumeOp id2 =>
      have hne : ¬ (id = id2) := fun hh => ho (by rw [hh])
      cases hs : m.slots id2 with
      | none => simpa [stepOp, tm_thread_resume, hs, hne] using h
      | some t => simpa [stepOp, tm_thread_resume, hs, hne] using h
  | suspendOp id2 =>
      by_cases hid : id = id2
      · subst hid
        cases hs : m.slots id with
        | none => simp [stepOp, tm_thread_suspend, hs]
        | some t =>
            cases t with
            | initState => simp [stepOp, tm_thread_suspend, hs, rt_thread_suspend]
            | ready => exact absurd hs h
            | suspended => simp [stepOp, tm_thread_suspend, hs, rt_thread_suspend]
      · cases hs : m.slots id2 with
        | none => simpa [stepOp, tm_thread_suspend, hs, hid] using h
        | some t => simpa [stepOp, tm_thread_suspend, hs, hid] using h
  | otherOp => simpa [stepOp] using h

theorem runOps_notReady (id : Nat) (ops : List TmOp) :
    ∀ m : ThreadMachine, m.slots id ≠ some ThreadState.ready →
      (∀ o ∈ ops, o ≠ TmOp.resumeOp id) →
      (runOps m ops).slots id ≠ some ThreadState.ready := by
  induction ops with
  | nil => intro m h _; simpa [runOps] using h
  | cons o rest ih =>
      intro m h hall
      have h1 := stepOp_notReady m id o h (hall o (List.mem_cons_self o rest))
      have h2 := ih (stepOp m o) h1 (fun o2 ho2 => hall o2 (List.mem_cons_of_mem o ho2))
      simpa [runOps] using h2

/-- Claim C1: whenever tm_thread_create returns TM_SUCCESS, the created thread has been
started and then immediately forced into the suspended state, and under any subsequent
sequence of porting-layer calls that contains no tm_thread_resume on that id the thread
never becomes runnable. -/
theorem C1_create_forces_suspend
    (m : ThreadMachine) (id priority : Nat) (createOk : Bool) (ops : List TmOp)
    (hsucc : (tm_thread_create m id priority createOk).2 = TmStatus.success)
    (hnores : ∀ o ∈ ops, o ≠ TmOp.resumeOp id) :
    ((tm_thread_create m id priority createOk).1.slots id = some ThreadState.suspended) ∧
    (runOps (tm_thread_create m id priority createOk).1 ops).slots id ≠
      some ThreadState.ready := by
  cases createOk with
  | false => simp [tm_thread_create, rt_thread_create] at hsucc
  | true =>
      have hslot : (tm_thread_create m id priority true).1.slots id =
          some ThreadState.suspended := by
        simp [tm_thread_create, rt_thread_create, rt_thread_startup, rt_thread_suspend]
      refine ⟨hslot, runOps_notReady id ops _ ?_ hnores⟩
      rw [hslot]
      simp

/-- Witness for C1 at a concrete table, id and call sequence. -/
theorem C1_create_forces_suspend_witness :
    ((tm_thread_create emptyThreads 0 16 true).1.slots 0 = some ThreadState.suspended) ∧
    (runOps (tm_thread_create emptyThreads 0 16 true).1
        [TmOp.suspendOp 0, TmOp.createOp 1 5 true, TmOp.resumeOp 1, TmOp.otherOp]).slots 0 ≠
      some ThreadState.ready :=
  C1_create_forces_suspend emptyThreads 0 16 true
    [TmOp.suspendOp 0, TmOp.createOp 1 5 true, TmOp.resumeOp 1, TmOp.otherOp]
    (by decide) (by decide)

@[simp]
theorem writeSlot_oob (m : ThreadMachine) (id : Nat) (v : Option ThreadState) :
    (writeSlot m id v).oob = (m.oob || decide (TM_TEST_NUM_THREADS ≤ id)) := rfl

@[simp]
theorem updateSlot_oob (m : ThreadMachine) (id : Nat)
    (f : Option ThreadState → Option ThreadState) :
    (updateSlot m id f).oob = (m.oob || decide (TM_TEST_NUM_THREADS ≤ id)) := rfl

/-- Claim C7 counterexample: at thread id 10 (outside the table range 0..9), with the
underlying creation succeeding, tm_thread_create returns TM_SUCCESS and performs an
out-of-bounds handle-table access — it does not return failure and it does touch memory
outside the table. -/
theorem C7_counterexample :
    (tm_thread_create emptyThreads 10 5 true).2 = TmStatus.success ∧
    (tm_thread_create emptyThreads 10 5 true).1.oob = true := by
  decide

/-- Claim C7 amended: tm_thread_create validates neither thread_id nor priority — its
status is determined solely by the underlying rt_thread_create; an id outside 0..9 causes
an out-of-bounds handle-table access instead of an error return; only slot id is written. -/
theorem C7_no_bounds_check (m : ThreadMachine) (id priority : Nat) (createOk : Bool) :
    ((tm_thread_create m id priority createOk).2 = TmStatus.success ↔ createOk = true) ∧
    ((tm_thread_create m id priority createOk).1.oob =
      (m.oob || decide (TM_TEST_NUM_THREADS ≤ id))) ∧
    (TM_TEST_NUM_THREADS ≤ id → (tm_thread_create m id priority createOk).1.oob = true) ∧
    (∀ j, j ≠ id → (tm_thread_create m id priority createOk).1.slots j = m.slots j) := by
  refine ⟨?_, ?_, ?_, ?_⟩
  · cases createOk <;> simp [tm_thread_create, rt_thread_create]
  · cases createOk <;>
      simp [tm_thread_create, rt_thread_create, Bool.or_assoc]
  · intro hge
    cases createOk <;>
      simp [tm_thread_create, rt_thread_create, hge]
  · intro j hj
    cases createOk <;> simp [tm_thread_create, rt_thread_create, hj]

/-- Witness for C7 amended: at id 10 the out-of-bounds flag is set. -/
theorem C7_no_bounds_check_witness :
    (tm_thread_create emptyThreads 10 5 true).1.oob = true :=
  (C7_no_bounds_check emptyThreads 10 5 true).2.2.1 (by decide)

/-- Claim C8 counterexample: in the static-thread porting-layer variant, tm_thread_suspend
on valid id 0 makes only the rt_thread_suspend kernel call — it does not yield control to
the scheduler before returning. -/
theorem C8_counterexample :
    (PortStatic.tm_thread_suspend ⟨fun _ => some ThreadState.ready, false⟩ 0).2.2 =
      [RtCall.suspendCall 0] ∧
    RtCall.scheduleCall ∉
      (PortStatic.tm_thread_suspend ⟨fun _ => some ThreadState.ready, false⟩ 0).2.2 := by
  decide

/-- Claim C8 amended: in the dynamic-thread porting-layer variant tm_thread_suspend
suspends the target thread and then calls rt_schedule before returning; the static-thread
variant performs only the suspend call and does not yield to the scheduler. -/
theorem C8_suspend_yields (m : ThreadMachine) (id : Nat)
    (h : m.slots id = some ThreadState.ready) :
    (tm_thread_suspend m id).1.slots id = some ThreadState.suspended ∧
    (tm_thread_suspend m id).2.1 = TmStatus.success ∧
    (tm_thread_suspend m id).2.2 = [RtCall.suspendCall id, RtCall.scheduleCall] ∧
    (PortStatic.tm_thread_suspend m id).2.2 = [RtCall.suspendCall id] := by
  simp [tm_thread_suspend, PortStatic.tm_thread_suspend, h, rt_thread_suspend]

/-- Witness for C8 amended at a concrete machine and id. -/
theorem C8_suspend_yields_witness :
    (tm_thread_suspend ⟨fun _ => some ThreadState.ready, false⟩ 1).1.slots 1 =
      some ThreadState.suspended ∧
    (tm_thread_suspend ⟨fun _ => some ThreadState.ready, false⟩ 1).2.1 = TmStatus.success ∧
    (tm_thread_suspend ⟨fun _ => some ThreadState.ready, false⟩ 1).2.2 =
      [RtCall.suspendCall 1, RtCall.scheduleCall] ∧
    (PortStatic.tm_thread_suspend ⟨fun _ => some ThreadState.ready, false⟩ 1).2.2 =
      [RtCall.suspendCall 1] :=
  C8_suspend_yields ⟨fun _ => some ThreadState.ready, false⟩ 1 rfl

/-- Claim C9, evaluation at the failing input: with slots 0..8 created and slot 9 never
created (its handle is RT_NULL), tm_thread_detach deletes the nine created threads but
dereferences the RT_NULL handle of slot 9 to read stack_addr — undefined behavior, not a
skip.  With all ten slots created no null handle is dereferenced and all ten are deleted. -/
theorem C9_detach_null_deref :
    (tm_thread_detach ⟨fun j => if j < 9 then some ThreadState.suspended else none,
        false⟩).2 = true ∧
    (tm_thread_detach ⟨fun j => if j < 9 then some ThreadState.suspended else none,
        false⟩).1 = [0, 1, 2, 3, 4, 5, 6, 7, 8] ∧
    (tm_thread_detach ⟨fun _ => some ThreadState.suspended, false⟩).2 = false ∧
    (tm_thread_detach ⟨fun _ => some ThreadState.suspended, false⟩).1 =
      [0, 1, 2, 3, 4, 5, 6, 7, 8, 9] := by
  decide

/-- Claim C2: SVC_Handler dispatches selector 255 to the interrupt-preemption handler
exactly once, selector 254 to the plain interrupt handler exactly once, never invokes more
than one handler per trigger, and invokes no handler at all for any other selector. -/
theorem C2_svc_dispatch (n : Nat) :
    SVC_Handler 255 = [TmHandler.interruptPreemption] ∧
    SVC_Handler 254 = [TmHandler.interrupt] ∧
    (SVC_Handler n).length ≤ 1 ∧
    (n ≠ 255 → n ≠ 254 → SVC_Handler n = []) := by
  refine ⟨rfl, rfl, ?_, ?_⟩
  · by_cases h1 : n = 255 <;> by_cases h2 : n = 254 <;> simp [SVC_Handler, h1, h2]
  · intro h1 h2
    simp [SVC_Handler, h1, h2]

/-- Witness for C2 at selector 7 (outside the reserved values). -/
theorem C2_svc_dispatch_witness :
    SVC_Handler 255 = [TmHandler.interruptPreemption] ∧
    SVC_Handler 254 = [TmHandler.interrupt] ∧
    SVC_Handler 7 = [] :=
  ⟨(C2_svc_dispatch 7).1, (C2_svc_dispatch 7).2.1,
   (C2_svc_dispatch 7).2.2.2 (by decide) (by decide)⟩

/-- Claim C10: tm_cause_interrupt raises a software trap exactly when the global trap_flag
is one of the two reserved values 255 and 254; for every other value it raises nothing and
no handler is invoked. -/
theorem C10_cause_interrupt_guard (f : Nat) :
    ((tm_cause_interrupt f).isSome ↔ (f = 255 ∨ f = 254)) ∧
    tm_cause_interrupt 255 = some 255 ∧
    tm_cause_interrupt 254 = some 254 ∧
    (f ≠ 255 → f ≠ 254 → tm_cause_interrupt f = none ∧ causeInterruptHandlers f = []) := by
  refine ⟨?_, rfl, rfl, ?_⟩
  · by_cases h1 : f = 255 <;> by_cases h2 : f = 254 <;>
      simp [tm_cause_interrupt, h1, h2]
  · intro h1 h2
    simp [tm_cause_interrupt, causeInterruptHandlers, h1, h2]

/-- Witness for C10 at trap_flag value 0. -/
theorem C10_cause_interrupt_guard_witness :
    ((tm_cause_interrupt 0).isSome ↔ (0 = 255 ∨ 0 = 254)) ∧
    tm_cause_interrupt 0 = none ∧
    causeInterruptHandlers 0 = [] :=
  ⟨(C10_cause_interrupt_guard 0).1,
   ((C10_cause_interrupt_guard 0).2.2.2 (by decide) (by decide)).1,
   ((C10_cause_interrupt_guard 0).2.2.2 (by decide) (by decide)).2⟩

/-- Claim C3: on an otherwise-empty valid queue, a send of a 16-byte envelope immediately
followed by a receive succeeds and yields back the identical envelope, leaving the queue
empty again. -/
theorem C3_queue_roundtrip (s : QueueTable) (id : Nat) (msg : Envelope)
    (hid : id < 4) (hempty : s id = []) (hlen : msg.length = 16) :
    (tm_queue_send s id msg).2 = TmStatus.success ∧
    (tm_queue_receive (tm_queue_send s id msg).1 id).2.1 = some msg ∧
    (tm_queue_receive (tm_queue_send s id msg).1 id).2.2 = TmStatus.success ∧
    (tm_queue_receive (tm_queue_send s id msg).1 id).1 id = [] := by
  simp [tm_queue_send, tm_queue_receive, rt_mq_send, rt_mq_recv, hempty, hlen,
    TM_QUEUE_MSG_SIZE, TM_QUEUE_CAPACITY]

/-- Witness for C3 on queue 0 with a concrete 16-byte envelope. -/
theorem C3_queue_roundtrip_witness :
    (tm_queue_send (fun _ => []) 0
      [0, 1, 2, 3, 4, 5, 6, 7, 8, 9, 10, 11, 12, 13, 14, 15]).2 = TmStatus.success ∧
    (tm_queue_receive (tm_queue_send (fun _ => []) 0
      [0, 1, 2, 3, 4, 5, 6, 7, 8, 9, 10, 11, 12, 13, 14, 15]).1 0).2.1 =
      some [0, 1, 2, 3, 4, 5, 6, 7, 8, 9, 10, 11, 12, 13, 14, 15] ∧
    (tm_queue_receive (tm_queue_send (fun _ => []) 0
      [0, 1, 2, 3, 4, 5, 6, 7, 8, 9, 10, 11, 12, 13, 14, 15]).1 0).2.2 = TmStatus.success ∧
    (tm_queue_receive (tm_queue_send (fun _ => []) 0
      [0, 1, 2, 3, 4, 5, 6, 7, 8, 9, 10, 11, 12, 13, 14, 15]).1 0).1 0 = [] :=
  C3_queue_roundtrip (fun _ => []) 0
    [0, 1, 2, 3, 4, 5, 6, 7, 8, 9, 10, 11, 12, 13, 14, 15]
    (by decide) rfl (by decide)

theorem sendList_ok (id : Nat) (msgs : List Envelope) :
    ∀ s : QueueTable, (∀ m2 ∈ msgs, m2.length = 16) →
      (s id).length + msgs.length ≤ 8 →
      (sendList s id msgs).2 = true ∧ (sendList s id msgs).1 id = s id ++ msgs := by
  induction msgs with
  | nil => intro s _ _; simp [sendList]
  | cons msg rest ih =>
      intro s hall hlen
      have hm : msg.length = 16 := hall msg (by simp)
      have hq : (s id).length < 8 := by
        simp only [List.length_cons] at hlen
        omega
      have hsend : (tm_queue_send s id msg).2 = TmStatus.success := by
        simp [tm_queue_send, rt_mq_send, hm, TM_QUEUE_MSG_SIZE, TM_QUEUE_CAPACITY, hq]
      have hstate : (tm_queue_send s id msg).1 id = s id ++ [msg] := by
        simp [tm_queue_send, rt_mq_send, hm, TM_QUEUE_MSG_SIZE, TM_QUEUE_CAPACITY, hq]
      have ih2 := ih (tm_queue_send s id msg).1
        (fun m2 hm2 => hall m2 (List.mem_cons_of_mem msg hm2))
        (by
          rw [hstate]
          simp only [List.length_append, List.length_cons, List.length_nil,
            List.length_singleton] at hlen ⊢
          omega)
      constructor
      · simp [sendList, hsend, ih2.1]
      · simp [sendList, ih2.2, hstate]

/-- Claim C5: on a valid queue, after 8 sends into an initially empty queue all succeed and
a 9th send fails, returning without modifying the queue; a receive on an empty queue fails
immediately with no envelope delivered.  Both operations are total functions of the queue
state, hence non-blocking. -/
theorem C5_queue_nonblocking (s : QueueTable) (id : Nat) (msgs : List Envelope)
    (m9 : Envelope) (hid : id < 4) (hempty : s id = [])
    (hall : ∀ m2 ∈ msgs, m2.length = 16) (hcount : msgs.length = 8) :
    (sendList s id msgs).2 = true ∧
    (tm_queue_send (sendList s id msgs).1 id m9).2 = TmStatus.error ∧
    (tm_queue_send (sendList s id msgs).1 id m9).1 id = (sendList s id msgs).1 id ∧
    (tm_queue_receive s id).2.2 = TmStatus.error ∧
    (tm_queue_receive s id).2.1 = none := by
  have h8 : (s id).length + msgs.length ≤ 8 := by
    rw [hempty, hcount]
    simp
  have hs := sendList_ok id msgs s hall h8
  have hfull : ((sendList s id msgs).1 id).length = 8 := by
    rw [hs.2, hempty]
    simpa using hcount
  refine ⟨hs.1, ?_, ?_, ?_, ?_⟩
  · simp [tm_queue_send, rt_mq_send, TM_QUEUE_CAPACITY, hfull]
  · simp [tm_queue_send, rt_mq_send, TM_QUEUE_CAPACITY, hfull]
  · simp [tm_queue_receive, rt_mq_recv, hempty]
  · simp [tm_queue_receive, rt_mq_recv, hempty]

/-- Witness for C5 on queue 0 with 8 concrete envelopes, then a 9th. -/
theorem C5_queue_nonblocking_witness :
    (sendList (fun _ => []) 0
      (List.replicate 8 [0, 1, 2, 3, 4, 5, 6, 7, 8, 9, 10, 11, 12, 13, 14, 15])).2 = true ∧
    (tm_queue_send (sendList (fun _ => []) 0
      (List.replicate 8 [0, 1, 2, 3, 4, 5, 6, 7, 8, 9, 10, 11, 12, 13, 14, 15])).1 0
      [0, 1, 2, 3, 4, 5, 6, 7, 8, 9, 10, 11, 12, 13, 14, 15]).2 = TmStatus.error ∧
    (tm_queue_receive (fun _ => ([] : MsgQueue)) 0).2.2 = TmStatus.error :=
  have h := C5_queue_nonblocking (fun _ => []) 0
    (List.replicate 8 [0, 1, 2, 3, 4, 5, 6, 7, 8, 9, 10, 11, 12, 13, 14, 15])
    [0, 1, 2, 3, 4, 5, 6, 7, 8, 9, 10, 11, 12, 13, 14, 15]
    (by decide) rfl (by decide) (by decide)
  ⟨h.1, h.2.1, h.2.2.2.1⟩

theorem allocSeq_length (id n : Nat) : ∀ s : PoolTable, (allocSeq s id n).2.length = n := by
  induction n with
  | zero => intro s; simp [allocSeq]
  | succ k ih => intro s; simp [allocSeq, ih]

theorem allocSeq_spec (id n : Nat) :
    ∀ s : PoolTable, n ≤ (s id).length →
      (∀ r ∈ (allocSeq s id n).2, r.isSome) ∧
      (allocSeq s id n).1 id = (s id).drop n := by
  induction n with
  | zero => intro s _; simp [allocSeq]
  | succ k ih =>
      intro s hn
      cases hq : s id with
      | nil =>
          rw [hq] at hn
          simp at hn
      | cons b rest =>
          have halloc1 : (tm_memory_pool_allocate s id).1 id = rest := by
            simp [tm_memory_pool_allocate, rt_mp_alloc, hq]
          have halloc2 : (tm_memory_pool_allocate s id).2.1 = some b := by
            simp [tm_memory_pool_allocate, rt_mp_alloc, hq]
          have hk : k ≤ rest.length := by
            rw [hq] at hn
            simpa using hn
          have ih2 := ih (tm_memory_pool_allocate s id).1 (by rw [halloc1]; exact hk)
          constructor
          · intro r hr
            simp only [allocSeq, List.mem_cons] at hr
            rcases hr with hr | hr
            · rw [hr, halloc2]
              simp
            · exact ih2.1 r hr
          · simp [allocSeq, ih2.2, halloc1, hq]

/-- Claim C4: from a freshly created pool exactly 8 allocations succeed, the 9th fails with
the out pointer left null, and after a deallocation the returned block is immediately
allocatable again. -/
theorem C4_pool_exhaustion (s : PoolTable) (id : Nat)
    (hid : id < 4) (hfresh : s id = freshPool) :
    (∀ r ∈ (allocSeq s id 8).2, r.isSome) ∧
    (allocSeq s id 8).2.length = 8 ∧
    (tm_memory_pool_allocate (allocSeq s id 8).1 id).2.1 = none ∧
    (tm_memory_pool_allocate (allocSeq s id 8).1 id).2.2 = TmStatus.error ∧
    (∀ b, (tm_memory_pool_allocate
        (tm_memory_pool_deallocate (allocSeq s id 8).1 id b).1 id).2.1 = some b ∧
      (tm_memory_pool_allocate
        (tm_memory_pool_deallocate (allocSeq s id 8).1 id b).1 id).2.2 =
        TmStatus.success) := by
  have hlen8 : 8 ≤ (s id).length := by
    rw [hfresh]
    simp [freshPool]
  have hspec := allocSeq_spec id 8 s hlen8
  have hdrop : (allocSeq s id 8).1 id = [] := by
    rw [hspec.2, hfresh]
    simp [freshPool]
  refine ⟨hspec.1, allocSeq_length id 8 s, ?_, ?_, ?_⟩
  · simp [tm_memory_pool_allocate, rt_mp_alloc, hdrop]
  · simp [tm_memory_pool_allocate, rt_mp_alloc, hdrop]
  · intro b
    constructor
    · simp [tm_memory_pool_allocate, tm_memory_pool_deallocate, rt_mp_alloc, rt_mp_free]
    · simp [tm_memory_pool_allocate, tm_memory_pool_deallocate, rt_mp_alloc, rt_mp_free]

/-- Witness for C4 on pool 0, deallocating block 3. -/
theorem C4_pool_exhaustion_witness :
    (tm_memory_pool_allocate (allocSeq (fun _ => freshPool) 0 8).1 0).2.1 = none ∧
    (tm_memory_pool_allocate (allocSeq (fun _ => freshPool) 0 8).1 0).2.2 =
      TmStatus.error ∧
    (tm_memory_pool_allocate
      (tm_memory_pool_deallocate (allocSeq (fun _ => freshPool) 0 8).1 0 3).1 0).2.1 =
      some 3 ∧
    (tm_memory_pool_allocate
      (tm_memory_pool_deallocate (allocSeq (fun _ => freshPool) 0 8).1 0 3).1 0).2.2 =
      TmStatus.success :=
  have h := C4_pool_exhaustion (fun _ => freshPool) 0 (by decide) rfl
  ⟨h.2.2.1, h.2.2.2.1, (h.2.2.2.2 3).1, (h.2.2.2.2 3).2⟩

/-- Claim C6, evaluation at the failing input: in the static-thread variant the get (and
the put) right after create on semaphore 0 pass the slot address &test_sem[0], not the
stored handle, so they never operate on the created semaphore, whose count stays 1 — the
claimed no-wait get/put protocol is not implemented by that variant.  The dynamic-thread
variant passes the stored handle: its first get succeeds, a second get without a put
blocks (wait-forever policy), and after a put a get succeeds again, as the claim
describes. -/
theorem C6_semtake_wrong_object :
    (PortStatic.tm_semaphore_get (tm_semaphore_create (fun _ => 0) 0).1 0).2 =
      SemObject.slotAddress 0 ∧
    (PortStatic.tm_semaphore_put (tm_semaphore_create (fun _ => 0) 0).1 0).2 =
      SemObject.slotAddress 0 ∧
    SemObject.slotAddress 0 ≠ SemObject.storedHandle 0 ∧
    (PortStatic.tm_semaphore_get (tm_semaphore_create (fun _ => 0) 0).1 0).1 0 = 1 ∧
    (tm_semaphore_get (tm_semaphore_create (fun _ => 0) 0).1 0).2.2 =
      SemObject.storedHandle 0 ∧
    (tm_semaphore_get (tm_semaphore_create (fun _ => 0) 0).1 0).2.1 = SemResult.ok ∧
    (tm_semaphore_get (tm_semaphore_get
      (tm_semaphore_create (fun _ => 0) 0).1 0).1 0).2.1 = SemResult.blocked ∧
    (tm_semaphore_get (tm_semaphore_put (tm_semaphore_get
      (tm_semaphore_create (fun _ => 0) 0).1 0).1 0).1 0).2.1 = SemResult.ok := by
  decide
